import Mathlib

/-!
Verification development for the Complete-ChatBot backend
(`chatbot-backend`).  The Python sources are shallowly embedded as
executable Lean definitions:

* `utils/save_chat.py` — conversation (de)serialisation
  (`save_chat_history_json` / `load_chat_history_json`);
* `utils/chatbot.py` — the two-stage chat handler (`chat`), its
  duplicate-pair skipping loop, and its error handling; calls to the
  hosted LLM, to the retriever, and to the web-search API are passed in
  as explicit outcome functions (`Except` values model raised
  exceptions);
* `utils/prepare_vectordb.py` — the document store
  (`delete_document_from_vectorstore`, `list_documents_from_vectorstore`);
* `utils/session_state.py` and `main.py` — session-key allocation
  (`get_new_chat_name` / `create_chat`) and session listing;
* `utils/save_docs.py` — upload filtering (`save_docs_to_vectordb`).

File systems are modelled as association lists of names to contents (or
to modification times), and Python dicts as association lists; JSON
round-tripping through a file is modelled by handing the written record
list directly to the loader.
-/

/- ===== Conversation store: utils/save_chat.py ===== -/

/-- One element of a multimodal (list-valued) message content: a text
block or an image-URL block, mirroring the langchain content-item dicts
used by the code. -/
inductive ContentItem where
  | text (s : String)
  | imageUrl (url : String)
  deriving DecidableEq, Repr

/-- A chat message: a human turn (whose content is either a plain string
or a multimodal list, as in langchain `HumanMessage`) or an assistant
turn (`AIMessage`, plain string content). -/
inductive Message where
  | human (content : Sum String (List ContentItem))
  | ai (content : String)
  deriving DecidableEq, Repr

/-- One JSON record as written by `save_chat_history_json`: the fields of
`message.dict()` that `load_chat_history_json` reads back (`type`,
`content`) plus the optional `image_data` field, which holds either a
single data URI or a list of them. -/
structure SavedRecord where
  type : String
  content : String
  image_data : Option (Sum String (List String))
  deriving DecidableEq, Repr

/-- Python truthiness of a value bound to `image_data`: `None` is absent
(modelled by `Option.none`), an empty string and an empty list are
falsy. -/
def imageDataTruthy : Sum String (List String) → Bool
  | .inl s => !(s = "")
  | .inr l => !l.isEmpty

/-- Serialisation of a single message, following the loop body of
`save_chat_history_json` (save_chat.py lines 16–38): multimodal human
content is flattened to a text field plus an `image_data` field that is
a bare string for exactly one image and a list otherwise; empty image
URLs are dropped (`if image_url:`). -/
def saveMessage (m : Message) : SavedRecord :=
  match m with
  | .human (.inl s) => ⟨"human", s, none⟩
  | .human (.inr items) =>
    let text_content := items.foldl (fun acc it =>
      match it with
      | .text t => t
      | .imageUrl _ => acc) ""
    let image_data_list := items.foldl (fun acc it =>
      match it with
      | .text _ => acc
      | .imageUrl u => if u = "" then acc else acc ++ [u]) ([] : List String)
    let image_data : Option (Sum String (List String)) :=
      match image_data_list with
      | [] => none
      | [u] => some (.inl u)
      | us => some (.inr us)
    ⟨"human", text_content, image_data⟩
  | .ai s => ⟨"ai", s, none⟩

/-- Model of `save_chat_history_json` (save_chat.py lines 6–39): the list
of records dumped to the JSON file. -/
def save_chat_history_json (chat_history : List Message) : List SavedRecord :=
  chat_history.map saveMessage

/-- Deserialisation of a single record, following the loop body of
`load_chat_history_json` (save_chat.py lines 57–78): a truthy
`image_data` is normalised to a list and rebuilt as multimodal content
(text item first, then one image-URL item per image); otherwise a plain
text message is produced.  Any non-`"human"` type yields an `AIMessage`. -/
def loadMessage (r : SavedRecord) : Message :=
  if r.type = "human" then
    match r.image_data with
    | some d =>
      if imageDataTruthy d then
        let image_data_list := match d with
          | .inl s => [s]
          | .inr l => l
        .human (.inr (.text r.content :: image_data_list.map ContentItem.imageUrl))
      else .human (.inl r.content)
    | none => .human (.inl r.content)
  else .ai r.content

/-- Model of `load_chat_history_json` (save_chat.py lines 41–79) applied
to the records previously written to the file. -/
def load_chat_history_json (json_data : List SavedRecord) : List Message :=
  json_data.map loadMessage

/- ===== chatbot.py message construction ===== -/

/-- A Python value passed as image data to the chat code: absent
(`None`), a single data-URI string, or a list of data-URI strings. -/
inductive ImageArg where
  | none
  | str (s : String)
  | list (l : List String)
  deriving DecidableEq, Repr

/-- Python truthiness of an image-data value. -/
def ImageArg.truthy : ImageArg → Bool
  | .none => false
  | .str s => !(s = "")
  | .list l => !l.isEmpty

/-- The URLs obtained by iterating over the value in Python
(`for image_data in image_data_array`): iterating a string yields its
characters one by one, which the code then treats as "images". -/
def ImageArg.toUrlList : ImageArg → List String
  | .none => []
  | .str s => s.data.map (fun c => String.mk [c])
  | .list l => l

/-- Model of `create_human_message_with_images` (chatbot.py lines
148–172): with a truthy argument it builds multimodal content (text item
followed by one image-URL item per element), otherwise a plain text
message. -/
def create_human_message_with_images (content : String) (image_data_array : ImageArg) :
    Message :=
  if image_data_array.truthy then
    .human (.inr (.text content :: image_data_array.toUrlList.map ContentItem.imageUrl))
  else
    .human (.inl content)

/- ===== Round-trip (C1) ===== -/

/-- An abstract conversation turn: a human message with text and an
(possibly empty) list of inline image data URIs, or an assistant
message. -/
inductive Turn where
  | human (text : String) (images : List String)
  | ai (text : String)
  deriving DecidableEq, Repr

/-- The in-memory message the chat code builds for a turn
(`create_human_message_with_images` for human turns, `AIMessage` for
assistant turns). -/
def Turn.toMessage : Turn → Message
  | .human t imgs => create_human_message_with_images t (.list imgs)
  | .ai t => .ai t

/-- Image payloads of a turn are data URIs, hence nonempty strings. -/
def Turn.imagesOk : Turn → Prop
  | .human _ imgs => ∀ u ∈ imgs, u ≠ ""
  | .ai _ => True

instance : DecidablePred Turn.imagesOk := fun t =>
  match t with
  | .human _ imgs => inferInstanceAs (Decidable (∀ u ∈ imgs, u ≠ ""))
  | .ai _ => inferInstanceAs (Decidable True)

/- ===== String helpers shared by the session/state models ===== -/

/-- Python `str.split(sep)` for a single-character separator, on
character lists: splitting the empty string yields `[[]]`, and every
separator occurrence starts a new (possibly empty) field. -/
def splitCharList (c : Char) : List Char → List (List Char)
  | [] => [[]]
  | x :: xs =>
    if x = c then [] :: splitCharList c xs
    else
      match splitCharList c xs with
      | [] => [[x]]
      | h :: t => (x :: h) :: t

/-- Python `str.split(sep)` for a single-character separator. -/
def pySplit (sep : Char) (s : String) : List String :=
  (splitCharList sep s.data).map (fun l => String.mk l)

/-- Contiguous-sublist test on character lists, modelling Python's
`needle in hay` for strings. -/
def subListOf (p : List Char) : List Char → Bool
  | [] => p.isEmpty
  | x :: xs => p.isPrefixOf (x :: xs) || subListOf p xs

/-- Python `needle in hay` on strings. -/
def strContainsSub (hay needle : String) : Bool :=
  subListOf needle.data hay.data

/-- Python `s.endswith(suf)`. -/
def pyEndsWith (s suf : String) : Bool :=
  List.isSuffixOf suf.data s.data

/- ===== Session keys: utils/session_state.py and main.py ===== -/

/-- Python `int()` on a string of decimal digits, with `None` standing
for a raised `ValueError` (char-level, so that it evaluates by kernel
reduction). -/
def parseNatDigits? (l : List Char) : Option Nat :=
  if !l.isEmpty && l.all Char.isDigit then
    some (l.foldl (fun n c => n * 10 + (c.toNat - '0'.toNat)) 0)
  else none

/-- Counter extraction used by `get_new_chat_name` (session_state.py
line 99): `int(chat_name.split('-')[-1].split('.')[0])`, with `None`
standing for a raised `ValueError`. -/
def chatCounter (chat_name : String) : Option Nat :=
  parseNatDigits? ((splitCharList '.' ((splitCharList '-' chat_name.data).getLastD [])).headD [])

/-- The `existing_chats` local of `get_new_chat_name` (session_state.py
line 86): directory entries ending in `.json`. -/
def existing_chats (dirNames : List String) : List String :=
  dirNames.filter (fun f => pyEndsWith f ".json")

/-- The `today_chats` local of `get_new_chat_name` (session_state.py
line 89): chats whose file name contains today's timestamp as a
substring. -/
def today_chats (base_timestamp : String) (dirNames : List String) : List String :=
  (existing_chats dirNames).filter (fun chat => strContainsSub chat base_timestamp)

/-- The `max_count` local of `get_new_chat_name` (session_state.py lines
95–102): highest parseable counter among today's chats, unparseable
names skipped. -/
def max_count (base_timestamp : String) (dirNames : List String) : Nat :=
  (today_chats base_timestamp dirNames).foldl (fun mc chat_name =>
    match chatCounter chat_name with
    | some n => max mc n
    | none => mc) 0

/-- Model of `get_new_chat_name` (session_state.py lines 74–104): the
directory listing of `chat_sessions` is passed in as a name list and the
current `dd-mm-yyyy` timestamp as a string. -/
def get_new_chat_name (base_timestamp : String) (dirNames : List String) : String :=
  if (today_chats base_timestamp dirNames).isEmpty then base_timestamp ++ "-1"
  else base_timestamp ++ "-" ++ toString (max_count base_timestamp dirNames + 1)

/-- Model of the `POST /create_chat` endpoint (main.py lines 57–64): the
`chat_sessions` directory is an association list of file names to file
contents; a missing history file is created holding the empty JSON
list. -/
def create_chat (base_timestamp : String) (fs : List (String × String)) :
    String × List (String × String) :=
  if fs.any (fun e => e.fst = get_new_chat_name base_timestamp (fs.map Prod.fst) ++ ".json")
  then (get_new_chat_name base_timestamp (fs.map Prod.fst), fs)
  else (get_new_chat_name base_timestamp (fs.map Prod.fst),
    fs ++ [(get_new_chat_name base_timestamp (fs.map Prod.fst) ++ ".json", "[]")])

/- ===== Session listing: get_existing_chat_sessions / GET /list_chats ===== -/

/-- Sort key used by `get_existing_chat_sessions` (session_state.py lines
65–69): `sorted(..., key=mtime, reverse=True)`, that is, newest first. -/
def mtimeGe (a b : String × Nat) : Prop := b.2 ≤ a.2

instance : DecidableRel mtimeGe := fun a b => Nat.decLe b.2 a.2

instance : IsTotal (String × Nat) mtimeGe := ⟨fun a b => Nat.le_total b.2 a.2⟩

instance : IsTrans (String × Nat) mtimeGe := ⟨fun _ _ _ h1 h2 => Nat.le_trans h2 h1⟩

/-- Model of `get_existing_chat_sessions` (session_state.py lines 56–72):
the `chat_sessions` directory is `none` when absent, otherwise a list of
(file name, modification time) entries; the result is the `.json` file
names sorted by modification time, newest first. -/
def get_existing_chat_sessions (dir : Option (List (String × Nat))) : List String :=
  match dir with
  | some entries =>
    (List.insertionSort mtimeGe
      (entries.filter (fun e => pyEndsWith e.1 ".json"))).map Prod.fst
  | none => []

/-- Model of the `GET /list_chats` endpoint (main.py lines 137–140),
which returns `get_existing_chat_sessions()` unchanged. -/
def list_chats (dir : Option (List (String × Nat))) : List String :=
  get_existing_chat_sessions dir

/-- The session key denoted by a stored session file: its name with the
`.json` extension removed (`create_chat` stores key `k` in file
`k ++ ".json"`, and `initialize_chat_session` recovers the key as
`name.split('.')[0]`). -/
def sessionKeyOfFile (name : String) : String :=
  (pySplit '.' name).headD ""

/-- Modelled from the spec: "`GET /list_chats` — returns session keys
sorted by last-modified, newest first" — the same listing but with
session keys (file names stripped of `.json`) instead of file names. -/
def list_chats_keys_spec (dir : Option (List (String × Nat))) : List String :=
  match dir with
  | some entries =>
    (List.insertionSort mtimeGe
      (entries.filter (fun e => pyEndsWith e.1 ".json"))).map
        (fun e => sessionKeyOfFile e.1)
  | none => []

/- ===== Document store: utils/prepare_vectordb.py ===== -/

/-- Python `os.path.basename` (POSIX): the part after the last `/`. -/
def basename (p : String) : String :=
  (pySplit '/' p).getLastD ""

/-- One chunk stored in the Chroma collection: its store-assigned id and
the `source` path recorded in its metadata. -/
structure Chunk where
  id : String
  source : String
  deriving DecidableEq, Repr

/-- The persistent document-store state: the `metadata.json` map
(filename to store id), the chunks of the Chroma collection, and the
files present in the docs directory. -/
structure VectorStore where
  metadata : List (String × String)
  chunks : List Chunk
  files : List String
  deriving DecidableEq, Repr

/-- Model of `list_documents_from_vectorstore`
(prepare_vectordb.py lines 140–143): the keys of `metadata.json`. -/
def list_documents_from_vectorstore (s : VectorStore) : List String :=
  s.metadata.map Prod.fst

/-- The `ids_to_delete` local of `delete_document_from_vectorstore`
(prepare_vectordb.py line 163): ids of all chunks whose source basename
equals the filename. -/
def ids_to_delete (s : VectorStore) (filename : String) : List String :=
  (s.chunks.filter (fun c => basename c.source = filename)).map Chunk.id

/-- Model of `delete_document_from_vectorstore`
(prepare_vectordb.py lines 145–178): returns `false` and changes nothing
when the filename is absent from `metadata.json`; otherwise deletes the
matching chunk ids (the collection call is skipped when no id matches),
removes the stored file if present, removes the metadata entry and
returns `true`. -/
def delete_document_from_vectorstore (s : VectorStore) (filename : String) :
    Bool × VectorStore :=
  if filename ∈ s.metadata.map Prod.fst then
    (true,
      { metadata := s.metadata.filter (fun kv => kv.1 ≠ filename)
        chunks :=
          if (ids_to_delete s filename).isEmpty then s.chunks
          else s.chunks.filter (fun c => c.id ∉ ids_to_delete s filename)
        files := s.files.filter (fun f => f ≠ filename) })
  else (false, s)

/-- Concrete store used by the C4 witness. -/
def storeC4 : VectorStore :=
  ⟨[("a.pdf", "doc_0")], [⟨"id1", "../docs/a.pdf"⟩], ["a.pdf"]⟩

/-- Concrete store used by the C9 witness: `b.pdf` is in the metadata
map but no chunk's source matches it. -/
def storeC9 : VectorStore :=
  ⟨[("b.pdf", "doc_1")], [⟨"id1", "../docs/a.pdf"⟩], []⟩

/- ===== Upload filtering: utils/save_docs.py and POST /upload ===== -/

/-- An uploaded file (FastAPI `UploadFile`): its filename and raw
content. -/
structure UploadFile where
  filename : String
  content : String
  deriving DecidableEq, Repr

/-- The state touched by an upload: the docs directory (name to content)
and the document store. -/
structure DocsState where
  docsDir : List (String × String)
  store : VectorStore
  deriving DecidableEq, Repr

/-- Writing one uploaded file into the docs directory
(`open(file_path, "wb")` overwrites an existing file). -/
def writeDocFile (st : DocsState) (name content : String) : DocsState :=
  { st with docsDir := st.docsDir.filter (fun e => e.1 ≠ name) ++ [(name, content)] }

/-- The status dictionary returned by `save_docs_to_vectordb`. -/
structure SaveDocsStatus where
  status : String
  message : String
  deriving DecidableEq, Repr

/-- Model of `save_docs_to_vectordb` (save_docs.py lines 4–31): files
whose names are already in `upload_docs` are filtered out; when new
files remain they are written to the docs directory and the vector store
is rebuilt through `get_vectorstore` (passed in as a state transformer,
since indexing delegates to external libraries); otherwise nothing
happens and a `no_new_files` status is returned. -/
def save_docs_to_vectordb (get_vectorstore : List String → DocsState → DocsState)
    (files : List UploadFile) (upload_docs : List String) (st : DocsState) :
    SaveDocsStatus × DocsState :=
  if (files.filter (fun f => f.filename ∉ upload_docs)) ≠ [] then
    let new_files := files.filter (fun f => f.filename ∉ upload_docs)
    let st1 := new_files.foldl (fun s f => writeDocFile s f.filename f.content) st
    let st2 := get_vectorstore (new_files.map UploadFile.filename) st1
    (⟨"success", "Uploaded " ++ toString new_files.length ++ " new documents."⟩, st2)
  else
    (⟨"no_new_files", "No new documents to upload."⟩, st)

/-- Model of the `POST /upload` endpoint (main.py lines 40–55): the list
of previously uploaded documents is the docs-directory listing; the
endpoint ignores the inner status and reports success. -/
def upload_docs_endpoint (get_vectorstore : List String → DocsState → DocsState)
    (pdfs : List UploadFile) (st : DocsState) : SaveDocsStatus × DocsState :=
  (⟨"success", "Documents uploaded successfully"⟩,
    (save_docs_to_vectordb get_vectorstore pdfs (st.docsDir.map Prod.fst) st).2)

/- ===== Chat handler: utils/chatbot.py ===== -/

/-- Python `str.strip()` (char-level so it evaluates by reduction). -/
def pyStrip (s : String) : String :=
  String.mk (((s.data.dropWhile Char.isWhitespace).reverse.dropWhile
    Char.isWhitespace).reverse)

/-- Python `str.lower()`. -/
def pyLower (s : String) : String :=
  String.mk (s.data.map Char.toLower)

/-- Python slice `s[:n]`. -/
def pyTake (s : String) (n : Nat) : String :=
  String.mk (s.data.take n)

/-- Python `str.strip(chars)`: remove the given characters from both
ends. -/
def pyStripChars (cs : List Char) (s : String) : String :=
  String.mk (((s.data.dropWhile (fun c => cs.contains c)).reverse.dropWhile
    (fun c => cs.contains c)).reverse)

/-- One normalised web-search result (`perform_tavily_search` returns
dicts with exactly these keys, web_search.py lines 66–72). -/
structure WebItem where
  title : String
  url : String
  content : String
  deriving DecidableEq, Repr

/-- One document returned by the retriever: its text and the metadata
fields the chat code reads (`source`, and optional `title` and
`page_label`). -/
structure RetrievedDoc where
  page_content : String
  source : String
  title : Option String
  page_label : Option String
  deriving DecidableEq, Repr

/-- The value a tool invocation produces: a document list from
`retrieve` or a result-dict list from a web-search tool. -/
inductive ToolResult where
  | docs (l : List RetrievedDoc)
  | web (l : List WebItem)
  deriving DecidableEq, Repr

/-- Model of `format_web_results_for_display` (chatbot.py lines 92–108):
every typed result carries `url` and `title`, so each becomes a
(title, url) source entry. -/
def format_web_results_for_display (web_results : List WebItem) :
    List (String × String) :=
  web_results.map (fun r => (r.title, r.url))

/-- Python `int()` accepting an optional leading minus sign. -/
def parseIntChars? (l : List Char) : Option Int :=
  match l with
  | '-' :: rest => (parseNatDigits? rest).map (fun n => -(n : Int))
  | _ => (parseNatDigits? l).map (fun n => (n : Int))

/-- Title extraction of `format_document_metadata_for_display`
(chatbot.py lines 118–126): sources under `../docs` are stripped to the
relative file name; otherwise the `title` metadata or the basename is
used. -/
def docTitle (d : RetrievedDoc) : String :=
  if strContainsSub d.source "../docs" then
    pyStripChars ['\\', '/'] ((d.source.splitOn "../docs").getD 1 (basename d.source))
  else
    match d.title with
    | some t => t
    | none => basename d.source

/-- The `metadata_dict[title].add(page)` update (a `defaultdict(set)`
keyed in insertion order; pages deduplicated): `none` records the key
without adding a page, as the `except` branch does. -/
def addPage (m : List (String × List Int)) (title : String) (p : Option Int) :
    List (String × List Int) :=
  match m with
  | [] => [(title, match p with | some v => [v] | none => [])]
  | (t, ps) :: rest =>
    if t = title then
      (t, match p with
          | some v => if ps.contains v then ps else ps ++ [v]
          | none => ps) :: rest
    else (t, ps) :: addPage rest title p

/-- Model of `format_document_metadata_for_display` (chatbot.py lines
110–145): groups pages by document title and renders one line per
document, pages sorted ascending. -/
def format_document_metadata_for_display (retrieved_docs : List RetrievedDoc) :
    String :=
  if retrieved_docs.isEmpty then ""
  else
    String.intercalate "\n" ((retrieved_docs.foldl (fun m d =>
      addPage m (docTitle d)
        (parseIntChars? (match d.page_label with
          | some pl => pl.data
          | none => "Unknown Page".data))) []).map (fun tp =>
      if tp.2.isEmpty then "Document: " ++ tp.1
      else "Document: " ++ tp.1 ++ " - Pages: " ++
        String.intercalate ", "
          ((List.insertionSort (fun a b : Int => a ≤ b) tp.2).map toString)))

/-- The `search_types` defaulting at chatbot.py lines 186–187: a missing
or empty list becomes `["web"]` when web search is enabled. -/
def defaultedSearchTypes (use_web_search : Bool) (search_types : Option (List String)) :
    Option (List String) :=
  if use_web_search = true ∧ (search_types = none ∨ search_types = some []) then
    some ["web"]
  else search_types

/-- The keys of `SEARCH_TOOL_MAP` (web_search.py lines 115–119), which
are also the names of the corresponding tools. -/
def SEARCH_TOOL_NAMES : List String := ["web", "academic", "social"]

/-- The web-search tool names registered by the setup loop at chatbot.py
lines 226–239: each requested type is lowercased and stripped and kept
only if it is a `SEARCH_TOOL_MAP` key. -/
def webToolNames (use_web_search : Bool) (search_types : Option (List String)) :
    List String :=
  if use_web_search then
    match defaultedSearchTypes use_web_search search_types with
    | some l =>
      l.filterMap (fun s =>
        if SEARCH_TOOL_NAMES.contains (pyStrip (pyLower s)) then
          some (pyStrip (pyLower s))
        else none)
    | none => []
  else []

/-- Whether the RAG tool is registered (chatbot.py lines 200–223): RAG
must be requested and a vector store must be available. -/
def ragEnabled (use_rag vectordb : Bool) : Bool := use_rag && vectordb

/-- The names in `tool_name_to_tool` after tool setup. -/
def activeToolNames (use_rag vectordb use_web_search : Bool)
    (search_types : Option (List String)) : List String :=
  (if ragEnabled use_rag vectordb then ["retrieve"] else []) ++
    webToolNames use_web_search search_types

/-- The normalisation at chatbot.py lines 259 and 425:
`image_data if isinstance(image_data, list) else ([image_data] if
image_data else None)`. -/
def normalizeImageData : ImageArg → ImageArg
  | .list l => .list l
  | .str s => if s = "" then .none else .list [s]
  | .none => .none

/-- The apology built by the handler at chatbot.py line 448:
`f"Sorry, an error occurred while processing your request: {str(e)[:100]}..."`. -/
def apologyMessage (e : String) : String :=
  "Sorry, an error occurred while processing your request: " ++ pyTake e 100 ++ "..."

/-- The mutable state of the tool-execution loop (chatbot.py lines
303–311), plus a log `invoked` of the (tool name, query) pairs whose
tool was actually invoked. -/
structure LoopState where
  executed_pairs : List String
  executed_tools : List String
  invoked : List (String × String)
  retrieved_docs_for_display : List RetrievedDoc
  web_results_for_display : List WebItem
  retrieved_context : String
  web_context : String
  deriving DecidableEq, Repr

/-- The loop state before the first planned pair. -/
def initLoopState : LoopState := ⟨[], [], [], [], [], "", ""⟩

/-- The `pair_id` string of chatbot.py line 323. -/
def pairId (tool_name query : String) : String := tool_name ++ ":" ++ query

/-- Result processing of one executed pair (chatbot.py lines 348–372):
a raised exception (`Except.error`) is swallowed, a `retrieve` result
extends the document buffer, a web-tool result extends the web buffer;
only the display/context fields change. -/
def processResult (ragOn use_web_search : Bool) (active : List String)
    (tool_name : String) (res : Except String ToolResult) (st1 : LoopState) :
    LoopState :=
  match res with
  | .error _ => st1
  | .ok result =>
    if ragOn = true ∧ tool_name = "retrieve" then
      match result with
      | .docs l =>
        { st1 with
            retrieved_docs_for_display := st1.retrieved_docs_for_display ++ l,
            retrieved_context := st1.retrieved_context ++
              String.join (l.map (fun d => d.page_content ++ "\n\n")) }
      | .web _ => st1
    else if use_web_search = true ∧ tool_name ∈ active then
      match result with
      | .web l =>
        { st1 with
            web_results_for_display := st1.web_results_for_display ++ l,
            web_context := st1.web_context ++
              String.join (l.map (fun w => w.content ++ "\n\n")) }
      | .docs _ => st1
    else st1

/-- One iteration of the execution loop (chatbot.py lines 317–372):
strip both strings, skip already-executed pair ids, skip unknown tools,
record the pair as executed before invoking it, then process the
invocation's outcome. -/
def execStep (ragOn use_web_search : Bool) (active : List String)
    (toolOutcome : String → String → Except String ToolResult)
    (st : LoopState) (pair : String × String) : LoopState :=
  if pairId (pyStrip pair.2) (pyStrip pair.1) ∈ st.executed_pairs then st
  else if pyStrip pair.2 ∉ active then st
  else
    processResult ragOn use_web_search active (pyStrip pair.2)
      (toolOutcome (pyStrip pair.2) (pyStrip pair.1))
      { st with
          executed_pairs := st.executed_pairs ++ [pairId (pyStrip pair.2) (pyStrip pair.1)],
          executed_tools := st.executed_tools ++ [pyStrip pair.2],
          invoked := st.invoked ++ [(pyStrip pair.2, pyStrip pair.1)] }

/-- The whole execution loop over the planner output. -/
def execLoop (ragOn use_web_search : Bool) (active : List String)
    (toolOutcome : String → String → Except String ToolResult)
    (plan : List (String × String)) : LoopState :=
  plan.foldl (execStep ragOn use_web_search active toolOutcome) initLoopState

/-- The `final_context` string assembled at chatbot.py lines 387–391. -/
def finalContext (st : LoopState) : String :=
  "Information found from documents and web searches:\n\n" ++
    (if st.retrieved_context ≠ "" then
      "From documents (RAG):\n" ++ st.retrieved_context ++ "\n\n" else "") ++
    (if st.web_context ≠ "" then
      "From web searches:\n" ++ st.web_context ++ "\n\n" else "")

/-- The `context_text` handed to the synthesis model (chatbot.py line
423). -/
def contextText (user_query : String) (st : LoopState) : String :=
  "Based on the following information, answer my question: " ++ user_query ++
    "\n\nContext from sources:\n" ++ finalContext st

/-- Everything observable about one `chat` call: the returned triple
(response, document info, web sources), the chat history after the call,
the log of tool invocations, and the number of LLM calls issued. -/
structure ChatOutcome where
  response : String
  document_info : String
  web_info : List (String × String)
  history : List Message
  invoked : List (String × String)
  llmCalls : Nat
  deriving DecidableEq, Repr

/-- Model of `chat` (chatbot.py lines 175–453).  The external calls are
passed in as outcome values: `planOutcome` is the parsed topic-analyzer
output (`Except.error` models an exception anywhere in the planning
stage, including `ast.literal_eval` failures), `toolOutcome` gives each
tool invocation's result or exception, `synthOutcome` is the final
completion on the assembled context text, and `directOutcome` is the
completion used by the tool-less branch (whose exceptions are not caught
by `chat`, hence the `Except` result). -/
def chat (chat_history : List Message) (vectordb : Bool) (user_query : String)
    (use_rag : Bool) (use_web_search : Bool) (search_types : Option (List String))
    (image_data : ImageArg)
    (planOutcome : Except String (List (String × String)))
    (toolOutcome : String → String → Except String ToolResult)
    (synthOutcome : String → Except String String)
    (directOutcome : Except String String) : Except String ChatOutcome :=
  if pyStrip user_query = "" ∧ image_data.truthy = false then
    .ok ⟨"Please provide a query or image.", "", [], chat_history, [], 0⟩
  else
    if activeToolNames use_rag vectordb use_web_search search_types = [] then
      match directOutcome with
      | .error e => .error e
      | .ok r =>
        .ok ⟨pyStrip r, "", [],
          (chat_history ++
            [create_human_message_with_images user_query (normalizeImageData image_data)]) ++
            [.ai (pyStrip r)], [], 1⟩
    else
      match planOutcome with
      | .error e =>
        .ok ⟨apologyMessage e, "", [],
          chat_history ++ [create_human_message_with_images user_query image_data,
            .ai (apologyMessage e)], [], 1⟩
      | .ok plan =>
        let st := execLoop (ragEnabled use_rag vectordb) use_web_search
          (activeToolNames use_rag vectordb use_web_search search_types) toolOutcome plan
        let document_metadata :=
          if ragEnabled use_rag vectordb = true ∧ st.retrieved_docs_for_display ≠ [] then
            format_document_metadata_for_display st.retrieved_docs_for_display
          else ""
        let web_source_info :=
          if use_web_search = true ∧ st.web_results_for_display ≠ [] then
            format_web_results_for_display st.web_results_for_display
          else []
        match synthOutcome (contextText user_query st) with
        | .error e =>
          .ok ⟨apologyMessage e, document_metadata, web_source_info,
            chat_history ++ [create_human_message_with_images user_query image_data,
              .ai (apologyMessage e)], st.invoked, 2⟩
        | .ok r =>
          .ok ⟨pyStrip r, document_metadata, web_source_info,
            chat_history ++
              [create_human_message_with_images user_query (normalizeImageData image_data),
                .ai (pyStrip r)], st.invoked, 2⟩

/-- Invariant of the execution loop: the pair ids of the invoked pairs
are pairwise distinct and all recorded in `executed_pairs`. -/
def LoopInv (st : LoopState) : Prop :=
  (st.invoked.map (fun p => pairId p.1 p.2)).Nodup ∧
  ∀ p ∈ st.invoked, pairId p.1 p.2 ∈ st.executed_pairs

/-- The loop-state components that steer the execution loop's control
flow: everything else never influences which pairs are invoked. -/
def sameControl (a b : LoopState) : Prop :=
  a.executed_pairs = b.executed_pairs ∧ a.invoked = b.invoked

/- ===== Theorems ===== -/

theorem foldl_text_over_images (imgs : List String) (acc : String) :
    (imgs.map ContentItem.imageUrl).foldl (fun acc it =>
      match it with
      | .text t => t
      | .imageUrl _ => acc) acc = acc := by
  induction imgs generalizing acc with
  | nil => rfl
  | cons i is ih => simpa using ih acc

theorem foldl_collect_images (imgs : List String) (acc : List String)
    (h : ∀ u ∈ imgs, u ≠ "") :
    (imgs.map ContentItem.imageUrl).foldl (fun acc it =>
      match it with
      | .text _ => acc
      | .imageUrl u => if u = "" then acc else acc ++ [u]) acc = acc ++ imgs := by
  induction imgs generalizing acc with
  | nil => simp
  | cons i is ih =>
    have hi : i ≠ "" := h i (by simp)
    simp only [List.map_cons, List.foldl_cons, if_neg hi]
    rw [ih (acc ++ [i]) (fun u hu => h u (by simp [hu]))]
    simp

theorem roundtrip_message (t : Turn) (h : t.imagesOk) :
    loadMessage (saveMessage t.toMessage) = t.toMessage := by
  match t with
  | .ai s => rfl
  | .human s imgs =>
    match imgs with
    | [] => rfl
    | i :: is =>
      have hne : ¬((ImageArg.list (i :: is)).truthy = false) := by
        simp [ImageArg.truthy]
      simp only [Turn.toMessage, create_human_message_with_images]
      rw [if_pos (by simp [ImageArg.truthy])]
      have himgs : ∀ u ∈ i :: is, u ≠ "" := h
      simp only [saveMessage, ImageArg.toUrlList, List.foldl_cons]
      rw [foldl_text_over_images, foldl_collect_images _ _ himgs]
      simp only [List.nil_append]
      match is with
      | [] =>
        have hi : i ≠ "" := himgs i (by simp)
        simp [loadMessage, imageDataTruthy, hi]
      | j :: js =>
        simp [loadMessage, imageDataTruthy]

/-- C1: for every chat history of human/assistant turns in which human
turns may carry inline image data URIs (nonempty strings),
`save_chat_history_json` followed by `load_chat_history_json` reproduces
the exact same turn sequence — same length, order, roles, text content
and image payloads. -/
theorem save_then_load_roundtrip (ts : List Turn) (h : ∀ t ∈ ts, t.imagesOk) :
    load_chat_history_json (save_chat_history_json (ts.map Turn.toMessage)) =
      ts.map Turn.toMessage := by
  unfold load_chat_history_json save_chat_history_json
  rw [List.map_map, List.map_map]
  apply List.map_congr_left
  intro t ht
  exact roundtrip_message t (h t ht)

/-- Witness for C1: a concrete two-turn history with one image survives
the round trip. -/
theorem save_then_load_roundtrip_witness :
    load_chat_history_json (save_chat_history_json
      ([Turn.human "describe this" ["data:image/png;base64,iVBORw0"],
        Turn.ai "It is a chart."].map Turn.toMessage)) =
      [Turn.human "describe this" ["data:image/png;base64,iVBORw0"],
        Turn.ai "It is a chart."].map Turn.toMessage :=
  save_then_load_roundtrip _ (by decide)

theorem splitCharList_ne_nil (c : Char) (l : List Char) : splitCharList c l ≠ [] := by
  induction l with
  | nil => simp [splitCharList]
  | cons x xs ih =>
    by_cases hx : x = c
    · simp [splitCharList, hx]
    · cases he : splitCharList c xs with
      | nil => simp [splitCharList, hx, he]
      | cons h t => simp [splitCharList, hx, he]

theorem splitCharList_of_not_mem {c : Char} {l : List Char} (h : c ∉ l) :
    splitCharList c l = [l] := by
  induction l with
  | nil => rfl
  | cons x xs ih =>
    have hx : ¬(x = c) := fun he => h (he ▸ List.mem_cons_self x xs)
    have hxs : c ∉ xs := fun hm => h (List.mem_cons_of_mem _ hm)
    simp [splitCharList, hx, ih hxs]

theorem splitCharList_append (c : Char) (xs ys : List Char) :
    splitCharList c (xs ++ c :: ys) = splitCharList c xs ++ splitCharList c ys := by
  induction xs with
  | nil =>
    cases he : splitCharList c ys with
    | nil => exact absurd he (splitCharList_ne_nil c ys)
    | cons h t => simp [splitCharList, he]
  | cons x xs ih =>
    by_cases hx : x = c
    · simp [splitCharList, hx, ih]
    · cases he : splitCharList c xs with
      | nil => exact absurd he (splitCharList_ne_nil c xs)
      | cons h t =>
        have hne := splitCharList_ne_nil c (xs ++ c :: ys)
        cases he2 : splitCharList c (xs ++ c :: ys) with
        | nil => exact absurd he2 hne
        | cons h2 t2 =>
          rw [ih, he] at he2
          simp only [List.cons_append] at he2
          cases he2
          simp [splitCharList, hx, ih, he, List.cons_append]

theorem isPrefixOf_append_self (l r : List Char) : l.isPrefixOf (l ++ r) = true := by
  simp [List.isPrefixOf_iff_prefix, List.prefix_append]

theorem subListOf_append_self (p r : List Char) : subListOf p (p ++ r) = true := by
  cases p with
  | nil =>
    cases r with
    | nil => rfl
    | cons x xs => simp [subListOf]
  | cons a as =>
    simp only [List.cons_append, subListOf, Bool.or_eq_true]
    exact Or.inl (isPrefixOf_append_self (a :: as) r)

theorem strContainsSub_left_append (ts r : String) :
    strContainsSub (ts ++ r) ts = true := by
  simpa [strContainsSub, String.data_append] using
    subListOf_append_self ts.data r.data

theorem pyEndsWith_append (s k suf : String) (h : pyEndsWith k suf = true) :
    pyEndsWith (s ++ k) suf = true := by
  simp only [pyEndsWith, List.isSuffixOf_iff_suffix, String.data_append] at h ⊢
  exact h.trans (List.suffix_append _ _)

theorem string_append_right_ne {a b : String} (s : String) (h : a ≠ b) :
    s ++ a ≠ s ++ b := by
  intro he
  apply h
  have hd := congrArg String.data he
  simp only [String.data_append] at hd
  exact String.ext (List.append_cancel_left hd)

theorem chatCounter_ts_one (ts : String) :
    chatCounter (ts ++ "-1.json") = some 1 := by
  unfold chatCounter
  have h1 : (ts ++ "-1.json").data = ts.data ++ ('-' :: "1.json".data) := by
    rw [String.data_append]
  rw [h1, splitCharList_append,
    splitCharList_of_not_mem (c := '-') (l := "1.json".data) (by decide),
    List.getLastD_concat]
  decide

theorem today_chats_nil (ts : String) (names : List String)
    (h : ∀ n ∈ names, pyEndsWith n ".json" = true → strContainsSub n ts = false) :
    today_chats ts names = [] := by
  unfold today_chats existing_chats
  rw [List.filter_eq_nil_iff]
  intro a ha
  rw [List.mem_filter] at ha
  simp [h a ha.1 ha.2]

theorem get_new_chat_name_fresh (ts : String) (names : List String)
    (h : ∀ n ∈ names, pyEndsWith n ".json" = true → strContainsSub n ts = false) :
    get_new_chat_name ts names = ts ++ "-1" := by
  unfold get_new_chat_name
  rw [today_chats_nil ts names h]
  rfl

/-- C6: two successive `create_chat` calls on the same calendar day,
starting from a `chat_sessions` directory with no session file for that
day, allocate the distinct increasing keys `ts ++ "-1"` and `ts ++ "-2"`
and create an empty (`"[]"`) history file for each key. -/
theorem create_chat_twice_same_day (ts : String) (fs : List (String × String))
    (h : ∀ n ∈ fs.map Prod.fst, pyEndsWith n ".json" = true → strContainsSub n ts = false) :
    create_chat ts fs = (ts ++ "-1", fs ++ [(ts ++ "-1.json", "[]")]) ∧
    create_chat ts (fs ++ [(ts ++ "-1.json", "[]")]) =
      (ts ++ "-2", (fs ++ [(ts ++ "-1.json", "[]")]) ++ [(ts ++ "-2.json", "[]")]) := by
  have e1 : ("-1" : String) ++ ".json" = "-1.json" := by decide
  have e2 : ("-2" : String) ++ ".json" = "-2.json" := by decide
  have hj1 : (ts ++ "-1") ++ ".json" = ts ++ "-1.json" := by
    rw [String.append_assoc, e1]
  have hj2 : (ts ++ "-2") ++ ".json" = ts ++ "-2.json" := by
    rw [String.append_assoc, e2]
  have hends1 : pyEndsWith (ts ++ "-1.json") ".json" = true :=
    pyEndsWith_append ts "-1.json" ".json" (by decide)
  have hcont1 : strContainsSub (ts ++ "-1.json") ts = true :=
    strContainsSub_left_append ts "-1.json"
  have hname1 : get_new_chat_name ts (fs.map Prod.fst) = ts ++ "-1" :=
    get_new_chat_name_fresh ts (fs.map Prod.fst) h
  have hnomem1 : fs.any (fun e => e.fst = ts ++ "-1.json") = false := by
    rw [List.any_eq_false]
    rintro ⟨n, c⟩ he heq
    simp only [decide_eq_true_eq] at heq
    have hm : n ∈ fs.map Prod.fst := by
      exact List.mem_map_of_mem Prod.fst he
    have := h n hm (by rw [heq]; exact hends1)
    rw [heq, hcont1] at this
    simp at this
  have part1 : create_chat ts fs = (ts ++ "-1", fs ++ [(ts ++ "-1.json", "[]")]) := by
    unfold create_chat
    rw [hname1, hj1, hnomem1]
    simp
  refine ⟨part1, ?_⟩
  have hnames1 : (fs ++ [(ts ++ "-1.json", "[]")]).map Prod.fst =
      fs.map Prod.fst ++ [ts ++ "-1.json"] := by simp
  have htoday2 : today_chats ts (fs.map Prod.fst ++ [ts ++ "-1.json"]) =
      [ts ++ "-1.json"] := by
    unfold today_chats existing_chats
    rw [List.filter_append]
    have h1 : List.filter (fun chat => strContainsSub chat ts)
        (List.filter (fun f => pyEndsWith f ".json") (fs.map Prod.fst)) = [] := by
      have := today_chats_nil ts (fs.map Prod.fst) h
      unfold today_chats existing_chats at this
      exact this
    rw [List.filter_append, h1]
    simp [hends1, hcont1]
  have hmax2 : max_count ts (fs.map Prod.fst ++ [ts ++ "-1.json"]) = 1 := by
    unfold max_count
    rw [htoday2]
    simp [chatCounter_ts_one]
  have hname2 : get_new_chat_name ts (fs.map Prod.fst ++ [ts ++ "-1.json"]) =
      ts ++ "-2" := by
    unfold get_new_chat_name
    rw [htoday2, hmax2]
    have h2 : toString (1 + 1) = "2" := by decide
    have h3 : "-" ++ "2" = "-2" := by decide
    simp only [List.isEmpty_cons, Bool.false_eq_true, if_false, h2]
    rw [String.append_assoc, h3]
  have hends2 : pyEndsWith (ts ++ "-2.json") ".json" = true :=
    pyEndsWith_append ts "-2.json" ".json" (by decide)
  have hcont2 : strContainsSub (ts ++ "-2.json") ts = true :=
    strContainsSub_left_append ts "-2.json"
  have hne12 : ts ++ "-1.json" ≠ ts ++ "-2.json" :=
    string_append_right_ne ts (by decide)
  have hnomem2 : (fs ++ [(ts ++ "-1.json", "[]")]).any
      (fun e => e.fst = ts ++ "-2.json") = false := by
    rw [List.any_eq_false]
    rintro ⟨n, c⟩ he heq
    simp only [decide_eq_true_eq] at heq
    rw [List.mem_append] at he
    rcases he with he | he
    · have hm : n ∈ fs.map Prod.fst := by
        exact List.mem_map_of_mem Prod.fst he
      have := h n hm (by rw [heq]; exact hends2)
      rw [heq, hcont2] at this
      simp at this
    · simp only [List.mem_singleton, Prod.mk.injEq] at he
      exact hne12 (he.1 ▸ heq)
  unfold create_chat
  rw [hnames1, hname2, hj2, hnomem2]
  simp

/-- Witness for C6: on an empty `chat_sessions` directory with timestamp
`12-10-2026`, the two calls produce keys `-1` and `-2` and the two empty
history files. -/
theorem create_chat_twice_same_day_witness :
    create_chat "12-10-2026" [] =
      ("12-10-2026" ++ "-1", [] ++ [("12-10-2026" ++ "-1.json", "[]")]) ∧
    create_chat "12-10-2026" ([] ++ [("12-10-2026" ++ "-1.json", "[]")]) =
      ("12-10-2026" ++ "-2",
        ([] ++ [("12-10-2026" ++ "-1.json", "[]")]) ++ [("12-10-2026" ++ "-2.json", "[]")]) :=
  create_chat_twice_same_day "12-10-2026" [] (by decide)

/-- Counterexample for C7: on a store holding the single session file
`01-01-2025-1.json`, the endpoint returns the file name
`01-01-2025-1.json`, not the session key `01-01-2025-1` claimed by the
spec. -/
theorem list_chats_counterexample :
    list_chats (some [("01-01-2025-1.json", 5)]) = ["01-01-2025-1.json"] ∧
    list_chats_keys_spec (some [("01-01-2025-1.json", 5)]) = ["01-01-2025-1"] ∧
    list_chats (some [("01-01-2025-1.json", 5)]) ≠
      list_chats_keys_spec (some [("01-01-2025-1.json", 5)]) := by
  decide

/-- C7 (amended): the `list_chats` endpoint returns the stored sessions'
history file names (session key plus `.json` extension) — not the bare
keys — sorted by last-modified time, newest first: the output is the
name projection of a permutation of the stored `.json` entries that is
ordered by non-increasing modification time. -/
theorem list_chats_sorted_newest_first (entries : List (String × Nat)) :
    ∃ l : List (String × Nat),
      list_chats (some entries) = l.map Prod.fst ∧
      l.Perm (entries.filter (fun e => pyEndsWith e.1 ".json")) ∧
      l.Pairwise (fun a b => b.2 ≤ a.2) := by
  refine ⟨List.insertionSort mtimeGe (entries.filter (fun e => pyEndsWith e.1 ".json")),
    rfl, List.perm_insertionSort _ _, ?_⟩
  exact List.sorted_insertionSort mtimeGe _

/-- C4: deleting an absent filename returns `false` (not an exception)
and changes nothing; deleting a present filename removes every chunk
whose source matches the filename, and afterwards the document listing
no longer contains it. -/
theorem delete_document_behavior (s : VectorStore) (filename : String) :
    (filename ∉ list_documents_from_vectorstore s →
      delete_document_from_vectorstore s filename = (false, s)) ∧
    (filename ∈ list_documents_from_vectorstore s →
      (∀ c ∈ (delete_document_from_vectorstore s filename).2.chunks,
        basename c.source ≠ filename) ∧
      filename ∉ list_documents_from_vectorstore
        (delete_document_from_vectorstore s filename).2) := by
  constructor
  · intro habs
    have habs' : filename ∉ s.metadata.map Prod.fst := habs
    unfold delete_document_from_vectorstore
    rw [if_neg habs']
  · intro hmem
    have hmem' : filename ∈ s.metadata.map Prod.fst := hmem
    unfold delete_document_from_vectorstore
    rw [if_pos hmem']
    constructor
    · intro c hc
      by_cases hids : (ids_to_delete s filename).isEmpty
      · rw [if_pos hids] at hc
        have hnil : s.chunks.filter (fun c => basename c.source = filename) = [] := by
          have := List.isEmpty_iff.mp hids
          unfold ids_to_delete at this
          exact List.map_eq_nil_iff.mp this
        have := List.filter_eq_nil_iff.mp hnil c hc
        simpa using this
      · rw [if_neg hids] at hc
        rw [List.mem_filter] at hc
        intro hbase
        have hcid : c.id ∈ ids_to_delete s filename := by
          unfold ids_to_delete
          exact List.mem_map_of_mem Chunk.id
            (List.mem_filter.mpr ⟨hc.1, by simp [hbase]⟩)
        have := hc.2
        simp only [decide_eq_true_eq] at this
        exact this hcid
    · unfold list_documents_from_vectorstore
      simp only [List.mem_map, List.mem_filter]
      rintro ⟨kv, ⟨_, hne⟩, hk⟩
      simp only [decide_eq_true_eq] at hne
      exact hne hk

/-- Witness for C4: deleting the absent `b.pdf` is a no-op returning
`false`, and after deleting the present `a.pdf` it is no longer
listed. -/
theorem delete_document_behavior_witness :
    delete_document_from_vectorstore storeC4 "b.pdf" = (false, storeC4) ∧
    "a.pdf" ∉ list_documents_from_vectorstore
      (delete_document_from_vectorstore storeC4 "a.pdf").2 :=
  ⟨(delete_document_behavior storeC4 "b.pdf").1 (by decide),
   ((delete_document_behavior storeC4 "a.pdf").2 (by decide)).2⟩

/-- C9: when the filename is present in the metadata map, deletion
returns `true` and removes the metadata entry (and the stored file) even
when no chunk in the index matches the filename — the chunks are left
untouched; success depends only on metadata membership. -/
theorem delete_document_success_without_chunks (s : VectorStore) (filename : String)
    (hmem : filename ∈ list_documents_from_vectorstore s)
    (hnochunk : ∀ c ∈ s.chunks, basename c.source ≠ filename) :
    (delete_document_from_vectorstore s filename).1 = true ∧
    (delete_document_from_vectorstore s filename).2.metadata =
      s.metadata.filter (fun kv => kv.1 ≠ filename) ∧
    (delete_document_from_vectorstore s filename).2.chunks = s.chunks ∧
    (delete_document_from_vectorstore s filename).2.files =
      s.files.filter (fun f => f ≠ filename) := by
  have hids : (ids_to_delete s filename).isEmpty := by
    unfold ids_to_delete
    rw [List.isEmpty_iff, List.map_eq_nil_iff, List.filter_eq_nil_iff]
    intro c hc
    simp [hnochunk c hc]
  have hmem' : filename ∈ s.metadata.map Prod.fst := hmem
  unfold delete_document_from_vectorstore
  rw [if_pos hmem']
  refine ⟨rfl, rfl, ?_, rfl⟩
  simp only [if_pos hids]

/-- Witness for C9: deleting `b.pdf` from `storeC9` succeeds, erases the
metadata entry and leaves the (non-matching) chunks untouched. -/
theorem delete_document_success_without_chunks_witness :
    (delete_document_from_vectorstore storeC9 "b.pdf").1 = true ∧
    (delete_document_from_vectorstore storeC9 "b.pdf").2.metadata =
      storeC9.metadata.filter (fun kv => kv.1 ≠ "b.pdf") ∧
    (delete_document_from_vectorstore storeC9 "b.pdf").2.chunks = storeC9.chunks ∧
    (delete_document_from_vectorstore storeC9 "b.pdf").2.files =
      storeC9.files.filter (fun f => f ≠ "b.pdf") :=
  delete_document_success_without_chunks storeC9 "b.pdf" (by decide) (by decide)

/-- C10: when every uploaded filename is already present among the
previously uploaded documents, `save_docs_to_vectordb` writes nothing,
leaves the state (docs directory, vector store) unchanged for any
indexing function, and returns the `no_new_files` status — while the
`/upload` endpoint still responds with a success status. -/
theorem upload_all_existing_noop
    (get_vectorstore : List String → DocsState → DocsState)
    (files : List UploadFile) (st : DocsState)
    (h : ∀ f ∈ files, f.filename ∈ st.docsDir.map Prod.fst) :
    save_docs_to_vectordb get_vectorstore files (st.docsDir.map Prod.fst) st =
      (⟨"no_new_files", "No new documents to upload."⟩, st) ∧
    upload_docs_endpoint get_vectorstore files st =
      (⟨"success", "Documents uploaded successfully"⟩, st) := by
  have hnil : files.filter (fun f => f.filename ∉ st.docsDir.map Prod.fst) = [] := by
    rw [List.filter_eq_nil_iff]
    intro f hf
    simp [h f hf]
  have h1 : save_docs_to_vectordb get_vectorstore files (st.docsDir.map Prod.fst) st =
      (⟨"no_new_files", "No new documents to upload."⟩, st) := by
    unfold save_docs_to_vectordb
    rw [if_neg (not_not_intro hnil)]
  exact ⟨h1, by unfold upload_docs_endpoint; rw [h1]⟩

/-- Witness for C10: re-uploading the already-stored `a.pdf` changes
nothing and the endpoint still reports success. -/
theorem upload_all_existing_noop_witness :
    save_docs_to_vectordb (fun _ s => s) [⟨"a.pdf", "bytes"⟩]
      ((DocsState.mk [("a.pdf", "old")] ⟨[], [], []⟩).docsDir.map Prod.fst)
      (DocsState.mk [("a.pdf", "old")] ⟨[], [], []⟩) =
      (⟨"no_new_files", "No new documents to upload."⟩,
        DocsState.mk [("a.pdf", "old")] ⟨[], [], []⟩) ∧
    upload_docs_endpoint (fun _ s => s) [⟨"a.pdf", "bytes"⟩]
      (DocsState.mk [("a.pdf", "old")] ⟨[], [], []⟩) =
      (⟨"success", "Documents uploaded successfully"⟩,
        DocsState.mk [("a.pdf", "old")] ⟨[], [], []⟩) :=
  upload_all_existing_noop (fun _ s => s) [⟨"a.pdf", "bytes"⟩]
    (DocsState.mk [("a.pdf", "old")] ⟨[], [], []⟩) (by decide)

theorem processResult_executed_pairs (ragOn uw : Bool) (active : List String)
    (t : String) (res : Except String ToolResult) (st : LoopState) :
    (processResult ragOn uw active t res st).executed_pairs = st.executed_pairs := by
  unfold processResult
  repeat' split
  all_goals rfl

theorem processResult_invoked (ragOn uw : Bool) (active : List String)
    (t : String) (res : Except String ToolResult) (st : LoopState) :
    (processResult ragOn uw active t res st).invoked = st.invoked := by
  unfold processResult
  repeat' split
  all_goals rfl

theorem execStep_inv (ragOn uw : Bool) (active : List String)
    (toolOutcome : String → String → Except String ToolResult)
    (st : LoopState) (pair : String × String) (h : LoopInv st) :
    LoopInv (execStep ragOn uw active toolOutcome st pair) := by
  unfold execStep
  split
  · exact h
  split
  · exact h
  rename_i hmem hact
  constructor
  · rw [processResult_invoked, List.map_append, List.nodup_append]
    refine ⟨h.1, by simp, ?_⟩
    intro x hx
    simp only [List.map_cons, List.map_nil, List.mem_singleton]
    intro hxe
    rw [List.mem_map] at hx
    obtain ⟨p, hp, hpx⟩ := hx
    exact hmem (hxe ▸ hpx ▸ h.2 p hp)
  · intro p hp
    rw [processResult_invoked] at hp
    rw [processResult_executed_pairs]
    simp only []
    rw [List.mem_append] at hp
    rcases hp with hp | hp
    · exact List.mem_append_left _ (h.2 p hp)
    · simp only [List.mem_singleton] at hp
      subst hp
      exact List.mem_append_right _ (by simp)

theorem execLoop_inv (ragOn uw : Bool) (active : List String)
    (toolOutcome : String → String → Except String ToolResult)
    (plan : List (String × String)) :
    LoopInv (execLoop ragOn uw active toolOutcome plan) := by
  have key : ∀ (ps : List (String × String)) (st : LoopState), LoopInv st →
      LoopInv (ps.foldl (execStep ragOn uw active toolOutcome) st) := by
    intro ps
    induction ps with
    | nil => intro st h; exact h
    | cons p ps ih =>
      intro st h
      exact ih _ (execStep_inv ragOn uw active toolOutcome st p h)
  exact key plan initLoopState ⟨by simp [initLoopState], by simp [initLoopState]⟩

theorem execLoop_invoked_nodup (ragOn uw : Bool) (active : List String)
    (toolOutcome : String → String → Except String ToolResult)
    (plan : List (String × String)) :
    (execLoop ragOn uw active toolOutcome plan).invoked.Nodup :=
  List.Nodup.of_map _ (execLoop_inv ragOn uw active toolOutcome plan).1

/-- C2: in any `chat` call, each distinct (tool, stripped sub-query)
pair of the planner output is executed at most once — the invocation log
of the run never contains a duplicate pair. -/
theorem chat_executes_each_pair_once (chat_history : List Message) (vectordb : Bool)
    (user_query : String) (use_rag use_web_search : Bool)
    (search_types : Option (List String)) (image_data : ImageArg)
    (planOutcome : Except String (List (String × String)))
    (toolOutcome : String → String → Except String ToolResult)
    (synthOutcome : String → Except String String)
    (directOutcome : Except String String) (out : ChatOutcome)
    (h : chat chat_history vectordb user_query use_rag use_web_search search_types
      image_data planOutcome toolOutcome synthOutcome directOutcome = .ok out) :
    out.invoked.Nodup := by
  unfold chat at h
  split at h
  · cases h
    simp
  · split at h
    · split at h
      · cases h
      · cases h
        simp
    · split at h
      · cases h
        simp
      · dsimp only at h
        split at h
        · cases h
          exact execLoop_invoked_nodup _ _ _ _ _
        · cases h
          exact execLoop_invoked_nodup _ _ _ _ _

/-- Witness for C2: a concrete run whose plan repeats the same
(sub-query, tool) pair invokes it only once, and its log is
duplicate-free. -/
theorem chat_executes_each_pair_once_witness :
    (ChatOutcome.mk "ans" "" [] [Message.human (Sum.inl "q"), Message.ai "ans"]
      [("retrieve", "a")] 2).invoked.Nodup :=
  chat_executes_each_pair_once [] true "q" true false none .none
    (.ok [("a", "retrieve"), ("a", "retrieve")])
    (fun _ _ => .ok (.docs [])) (fun _ => .ok "ans") (.ok "x") _ rfl

/-- C3: when at least one tool is enabled and the guard did not return
early, any exception in the planning or synthesis stage is caught: the
call still returns normally with the apology string containing the error
text truncated to at most 100 characters, and the history gains the
user's query as a human turn followed by the apology as the assistant
turn. -/
theorem chat_error_returns_apology (chat_history : List Message) (vectordb : Bool)
    (user_query : String) (use_rag use_web_search : Bool)
    (search_types : Option (List String)) (image_data : ImageArg)
    (planOutcome : Except String (List (String × String)))
    (toolOutcome : String → String → Except String ToolResult)
    (synthOutcome : String → Except String String)
    (directOutcome : Except String String) (e : String)
    (hq : ¬(pyStrip user_query = "" ∧ image_data.truthy = false))
    (htools : activeToolNames use_rag vectordb use_web_search search_types ≠ [])
    (herr : planOutcome = .error e ∨
      ∃ plan, planOutcome = .ok plan ∧
        synthOutcome (contextText user_query
          (execLoop (ragEnabled use_rag vectordb) use_web_search
            (activeToolNames use_rag vectordb use_web_search search_types)
            toolOutcome plan)) = .error e) :
    ∃ out, chat chat_history vectordb user_query use_rag use_web_search search_types
        image_data planOutcome toolOutcome synthOutcome directOutcome = .ok out ∧
      out.response = apologyMessage e ∧
      (pyTake e 100).data.length ≤ 100 ∧
      out.history = chat_history ++
        [create_human_message_with_images user_query image_data,
          .ai (apologyMessage e)] := by
  have hlen : (pyTake e 100).data.length ≤ 100 := by
    unfold pyTake
    simp [List.length_take_le 100 e.data]
  unfold chat
  rw [if_neg hq, if_neg htools]
  rcases herr with hp | ⟨plan, hp, hs⟩
  · rw [hp]
    exact ⟨_, rfl, rfl, hlen, rfl⟩
  · rw [hp]
    dsimp only
    rw [hs]
    exact ⟨_, rfl, rfl, hlen, rfl⟩

/-- Witness for C3: with the RAG tool enabled and a planning failure
`"boom"`, the call returns the apology and appends the two turns. -/
theorem chat_error_returns_apology_witness :
    ∃ out, chat [] true "hi" true false none .none (.error "boom")
        (fun _ _ => .ok (.docs [])) (fun _ => .ok "x") (.ok "y") = .ok out ∧
      out.response = apologyMessage "boom" ∧
      (pyTake "boom" 100).data.length ≤ 100 ∧
      out.history = [] ++
        [create_human_message_with_images "hi" .none, .ai (apologyMessage "boom")] :=
  chat_error_returns_apology [] true "hi" true false none .none (.error "boom")
    (fun _ _ => .ok (.docs [])) (fun _ => .ok "x") (.ok "y") "boom"
    (by decide) (by decide) (Or.inl rfl)

theorem execStep_control_congr (ragOn uw : Bool) (active : List String)
    (f g : String → String → Except String ToolResult)
    (st1 st2 : LoopState) (pair : String × String) (h : sameControl st1 st2) :
    sameControl (execStep ragOn uw active f st1 pair)
      (execStep ragOn uw active g st2 pair) := by
  unfold execStep
  by_cases h1 : pairId (pyStrip pair.2) (pyStrip pair.1) ∈ st1.executed_pairs
  · rw [if_pos h1, if_pos (h.1 ▸ h1)]
    exact h
  · rw [if_neg h1, if_neg (fun hc => h1 (h.1.symm ▸ hc))]
    by_cases h2 : pyStrip pair.2 ∉ active
    · rw [if_pos h2, if_pos h2]
      exact h
    · rw [if_neg h2, if_neg h2]
      constructor
      · rw [processResult_executed_pairs, processResult_executed_pairs]
        simp only [h.1]
      · rw [processResult_invoked, processResult_invoked]
        simp only [h.2]

theorem execLoop_invoked_congr (ragOn uw : Bool) (active : List String)
    (f g : String → String → Except String ToolResult)
    (plan : List (String × String)) :
    (execLoop ragOn uw active f plan).invoked =
      (execLoop ragOn uw active g plan).invoked := by
  have key : ∀ (ps : List (String × String)) (st1 st2 : LoopState),
      sameControl st1 st2 →
      sameControl (ps.foldl (execStep ragOn uw active f) st1)
        (ps.foldl (execStep ragOn uw active g) st2) := by
    intro ps
    induction ps with
    | nil => intro st1 st2 h; exact h
    | cons p ps ih =>
      intro st1 st2 h
      exact ih _ _ (execStep_control_congr ragOn uw active f g st1 st2 p h)
  exact (key plan initLoopState initLoopState ⟨rfl, rfl⟩).2

/-- C5: exceptions raised by individual tool invocations never abort the
turn — the sequence of invoked (tool, sub-query) pairs is the same under
any two tool oracles (in particular, after a failing invocation every
remaining planned pair is still processed in order), and when synthesis
succeeds the call returns normally with the response synthesized from
whatever partial context the (possibly failing) tools accumulated. -/
theorem chat_tool_failures_do_not_abort (chat_history : List Message) (vectordb : Bool)
    (user_query : String) (use_rag use_web_search : Bool)
    (search_types : Option (List String)) (image_data : ImageArg)
    (plan : List (String × String))
    (f g : String → String → Except String ToolResult)
    (synth : String → String) (directOutcome : Except String String)
    (hq : ¬(pyStrip user_query = "" ∧ image_data.truthy = false))
    (htools : activeToolNames use_rag vectordb use_web_search search_types ≠ []) :
    (execLoop (ragEnabled use_rag vectordb) use_web_search
        (activeToolNames use_rag vectordb use_web_search search_types) f plan).invoked =
      (execLoop (ragEnabled use_rag vectordb) use_web_search
        (activeToolNames use_rag vectordb use_web_search search_types) g plan).invoked ∧
    ∃ out, chat chat_history vectordb user_query use_rag use_web_search search_types
        image_data (.ok plan) f (fun c => .ok (synth c)) directOutcome = .ok out ∧
      out.response = pyStrip (synth (contextText user_query
        (execLoop (ragEnabled use_rag vectordb) use_web_search
          (activeToolNames use_rag vectordb use_web_search search_types) f plan))) ∧
      out.invoked = (execLoop (ragEnabled use_rag vectordb) use_web_search
        (activeToolNames use_rag vectordb use_web_search search_types) f plan).invoked := by
  refine ⟨execLoop_invoked_congr _ _ _ f g plan, ?_⟩
  unfold chat
  rw [if_neg hq, if_neg htools]
  exact ⟨_, rfl, rfl, rfl⟩

/-- Witness for C5: with a tool oracle that always raises, the planned
pair is still invoked (same log as under an always-succeeding oracle)
and the response is still synthesized. -/
theorem chat_tool_failures_do_not_abort_witness :
    (execLoop (ragEnabled true true) false (activeToolNames true true false none)
        (fun _ _ => .error "down") [("a", "retrieve")]).invoked =
      (execLoop (ragEnabled true true) false (activeToolNames true true false none)
        (fun _ _ => .ok (.docs [])) [("a", "retrieve")]).invoked ∧
    ∃ out, chat [] true "hi" true false none .none (.ok [("a", "retrieve")])
        (fun _ _ => .error "down") (fun c => .ok ((fun _ => "ans") c)) (.ok "y") =
          .ok out ∧
      out.response = pyStrip ((fun _ => "ans") (contextText "hi"
        (execLoop (ragEnabled true true) false (activeToolNames true true false none)
          (fun _ _ => .error "down") [("a", "retrieve")]))) ∧
      out.invoked = (execLoop (ragEnabled true true) false
        (activeToolNames true true false none)
        (fun _ _ => .error "down") [("a", "retrieve")]).invoked :=
  chat_tool_failures_do_not_abort [] true "hi" true false none .none
    [("a", "retrieve")] (fun _ _ => .error "down") (fun _ _ => .ok (.docs []))
    (fun _ => "ans") (.ok "y") (by decide) (by decide)

/-- C8: a query that is empty or whitespace-only, with no image data,
makes `chat` return the fixed string with empty document info and web
sources, leave the history unchanged, invoke no tool and issue no model
call. -/
theorem chat_empty_query_early_return (chat_history : List Message) (vectordb : Bool)
    (user_query : String) (use_rag use_web_search : Bool)
    (search_types : Option (List String)) (image_data : ImageArg)
    (planOutcome : Except String (List (String × String)))
    (toolOutcome : String → String → Except String ToolResult)
    (synthOutcome : String → Except String String)
    (directOutcome : Except String String)
    (hq : pyStrip user_query = "") (himg : image_data.truthy = false) :
    chat chat_history vectordb user_query use_rag use_web_search search_types
      image_data planOutcome toolOutcome synthOutcome directOutcome =
      .ok ⟨"Please provide a query or image.", "", [], chat_history, [], 0⟩ := by
  unfold chat
  rw [if_pos ⟨hq, himg⟩]

/-- Witness for C8: a whitespace-only query with no image returns the
fixed message and changes nothing, for a run with all stages armed. -/
theorem chat_empty_query_early_return_witness :
    chat [Message.ai "prev"] true "   " true true (some ["web"]) .none
      (.ok [("a", "retrieve")]) (fun _ _ => .ok (.docs [])) (fun _ => .ok "x")
      (.ok "y") =
      .ok ⟨"Please provide a query or image.", "", [], [Message.ai "prev"], [], 0⟩ :=
  chat_empty_query_early_return [Message.ai "prev"] true "   " true true
    (some ["web"]) .none (.ok [("a", "retrieve")]) (fun _ _ => .ok (.docs []))
    (fun _ => .ok "x") (.ok "y") (by decide) (by decide)
